import Mathlib

/-!
Shallow embedding of the event-to-webhook routing core of WorkflowBuddy
(`buddy/utils.py`): the write-through config store, the filter engine, the
payload transformer and the dispatcher, together with proofs of the
specification's claims about them.

Conventions of the embedding:
* JSON values are modelled by `JVal` (numbers as integers; the events and
  configuration handled by the core carry no fractional numbers).
* Python dictionaries are insertion-ordered association lists:
  `dictGet` / `dictSet` / `dictDel` mirror `d.get(k)` / `d[k] = v` / `del d[k]`
  (updating an existing key keeps its position, a new key is appended).
* A Python exception that the code does not catch is `Except.error`.
* The durable file is modelled by its parsed contents (`DB.disk`);
  `json.dumps` followed by `json.load` is the identity on the snapshots the
  core writes, so `sync_cache_to_disk` copies the cache into the disk field.
* `list(set(curr))` (utils.py line 123) is modelled by `List.dedup`: only the
  membership of the resulting list is relied upon anywhere, because CPython's
  set iteration order is unspecified.
-/

namespace WB

/-- JSON-like values exchanged with the store and the event source. -/
inductive JVal where
  | null : JVal
  | bool : Bool → JVal
  | num : Int → JVal
  | str : String → JVal
  | list : List JVal → JVal
  | obj : List (String × JVal) → JVal
  deriving Repr

mutual

/-- Decidable equality of JSON values (structural, so that concrete store
states can be evaluated inside proofs). -/
def JVal.decEq : (a b : JVal) → Decidable (a = b)
  | .null, .null => isTrue rfl
  | .null, .bool _ | .null, .num _ | .null, .str _ | .null, .list _ | .null, .obj _ =>
      isFalse (fun h => JVal.noConfusion h)
  | .bool _, .null | .bool _, .num _ | .bool _, .str _ | .bool _, .list _ | .bool _, .obj _ =>
      isFalse (fun h => JVal.noConfusion h)
  | .num _, .null | .num _, .bool _ | .num _, .str _ | .num _, .list _ | .num _, .obj _ =>
      isFalse (fun h => JVal.noConfusion h)
  | .str _, .null | .str _, .bool _ | .str _, .num _ | .str _, .list _ | .str _, .obj _ =>
      isFalse (fun h => JVal.noConfusion h)
  | .list _, .null | .list _, .bool _ | .list _, .num _ | .list _, .str _ | .list _, .obj _ =>
      isFalse (fun h => JVal.noConfusion h)
  | .obj _, .null | .obj _, .bool _ | .obj _, .num _ | .obj _, .str _ | .obj _, .list _ =>
      isFalse (fun h => JVal.noConfusion h)
  | .bool a, .bool b =>
      match inferInstanceAs (Decidable (a = b)) with
      | isTrue h => isTrue (by rw [h])
      | isFalse h => isFalse (fun he => h (by injection he))
  | .num a, .num b =>
      match inferInstanceAs (Decidable (a = b)) with
      | isTrue h => isTrue (by rw [h])
      | isFalse h => isFalse (fun he => h (by injection he))
  | .str a, .str b =>
      match inferInstanceAs (Decidable (a = b)) with
      | isTrue h => isTrue (by rw [h])
      | isFalse h => isFalse (fun he => h (by injection he))
  | .list a, .list b =>
      match JVal.decEqList a b with
      | isTrue h => isTrue (by rw [h])
      | isFalse h => isFalse (fun he => h (by injection he))
  | .obj a, .obj b =>
      match JVal.decEqObj a b with
      | isTrue h => isTrue (by rw [h])
      | isFalse h => isFalse (fun he => h (by injection he))

/-- Decidable equality of JSON arrays. -/
def JVal.decEqList : (a b : List JVal) → Decidable (a = b)
  | [], [] => isTrue rfl
  | [], _ :: _ => isFalse (fun h => List.noConfusion h)
  | _ :: _, [] => isFalse (fun h => List.noConfusion h)
  | x :: xs, y :: ys =>
      match JVal.decEq x y, JVal.decEqList xs ys with
      | isTrue h1, isTrue h2 => isTrue (by rw [h1, h2])
      | isFalse h1, _ => isFalse (fun he => h1 (by injection he))
      | _, isFalse h2 => isFalse (fun he => h2 (by injection he))

/-- Decidable equality of JSON objects' entry lists. -/
def JVal.decEqObj : (a b : List (String × JVal)) → Decidable (a = b)
  | [], [] => isTrue rfl
  | [], _ :: _ => isFalse (fun h => List.noConfusion h)
  | _ :: _, [] => isFalse (fun h => List.noConfusion h)
  | (k, x) :: xs, (k', y) :: ys =>
      match inferInstanceAs (Decidable (k = k')), JVal.decEq x y, JVal.decEqObj xs ys with
      | isTrue hk, isTrue h1, isTrue h2 => isTrue (by rw [hk, h1, h2])
      | isFalse hk, _, _ =>
          isFalse (fun he => by injection he with hp ht; exact hk (congrArg Prod.fst hp))
      | _, isFalse h1, _ =>
          isFalse (fun he => by injection he with hp ht; exact h1 (congrArg Prod.snd hp))
      | _, _, isFalse h2 => isFalse (fun he => h2 (by injection he))

end

instance : DecidableEq JVal := JVal.decEq

/-- A Python dictionary with string keys, as produced by `json.load`. -/
abbrev Dict := List (String × JVal)

/-- The process-wide store: event-type key to bucket value, as in
`IN_MEMORY_WRITE_THROUGH_CACHE: Dict[str, List]` (utils.py line 36). -/
abbrev Store := List (String × List JVal)

/-- `d.get(k)` / `d[k]` lookup on an insertion-ordered dictionary. -/
def dictGet : List (String × α) → String → Option α
  | [], _ => none
  | (k', v) :: rest, k => if k' = k then some v else dictGet rest k

/-- `d[k] = v`: replaces in place when the key exists, appends otherwise. -/
def dictSet : List (String × α) → String → α → List (String × α)
  | [], k, v => [(k, v)]
  | (k', v') :: rest, k, v =>
      if k' = k then (k, v) :: rest else (k', v') :: dictSet rest k v

/-- `del d[k]`: removes the entry for `k` (a dictionary holds at most one). -/
def dictDel : List (String × α) → String → List (String × α)
  | [], _ => []
  | (k', v') :: rest, k => if k' = k then rest else (k', v') :: dictDel rest k

mutual

/-- Python `repr` of a JSON-like value, used by f-string interpolation of
non-string values. -/
def pyRepr : JVal → String
  | .null => "None"
  | .bool b => if b then "True" else "False"
  | .num n => toString n
  | .str s => "'" ++ s ++ "'"
  | .list xs => "[" ++ pyReprList xs ++ "]"
  | .obj kvs => "\x7b" ++ pyReprObj kvs ++ "\x7d"

/-- Comma-joined `repr`s of a JSON array's elements. -/
def pyReprList : List JVal → String
  | [] => ""
  | [x] => pyRepr x
  | x :: xs => pyRepr x ++ ", " ++ pyReprList xs

/-- Comma-joined `repr`s of a JSON object's entries. -/
def pyReprObj : List (String × JVal) → String
  | [] => ""
  | [(k, v)] => "'" ++ k ++ "': " ++ pyRepr v
  | (k, v) :: kvs => "'" ++ k ++ "': " ++ pyRepr v ++ ", " ++ pyReprObj kvs

end

/-- Python `str` of a value, as produced by f-string interpolation. -/
def pyStr : JVal → String
  | .str s => s
  | v => pyRepr v

/-- f-string interpolation of an expression that may be `None`
(for instance `event.get("reaction")`). -/
def pyShow : Option JVal → String
  | none => "None"
  | some v => pyStr v

/-- Python truthiness of the result of a `.get`, as in
`if webhook_config.get("raw_event"):`. -/
def pyTruthy : Option JVal → Bool
  | none => false
  | some .null => false
  | some (.bool b) => b
  | some (.num n) => n != 0
  | some (.str s) => s != ""
  | some (.list xs) => !xs.isEmpty
  | some (.obj kvs) => !kvs.isEmpty

/-- Whether a value is a JSON object (a Python `dict`). -/
def JVal.isObj : JVal → Bool
  | .obj _ => true
  | _ => false

/-- Whether a value is a JSON array (a Python `list`). -/
def JVal.isArr : JVal → Bool
  | .list _ => true
  | _ => false

/-- Modelled from the spec: `buddy/constants.py` is not among the sources.
The "reaction added" event type tag (`c.EVENT_REACTION_ADDED`), which the
spec and the payload transformer's literal (utils.py line 585) both spell
`reaction_added`. -/
def EVENT_REACTION_ADDED : String := "reaction_added"

/-- Modelled from the spec: `buddy/constants.py` is not among the sources.
The "mention" event type tag (`c.EVENT_APP_MENTION`), spelled `app_mention`
in the spec's §8 and in the repository's tests. -/
def EVENT_APP_MENTION : String := "app_mention"

/-- Modelled from the spec: `buddy/constants.py` is not among the sources.
The reserved sentinel key (`c.DB_UNHANDLED_EVENTS_KEY`) under which the
unhandled-event list is stored in the snapshot. -/
def DB_UNHANDLED_EVENTS_KEY : String := "unhandled_events"

/-- The state of the Config Store: the in-process cache
(`IN_MEMORY_WRITE_THROUGH_CACHE`) and the parsed contents of the durable
file (`PERSISTED_JSON_FILE`). -/
structure DB where
  cache : Store
  disk : Store
  deriving Repr, DecidableEq

/-- `sync_cache_to_disk` (utils.py lines 133-137): serialize the whole cache
and rewrite the durable file. On parsed file contents this copies the cache,
since `json.load` after `json.dumps` returns an equal dictionary. -/
def sync_cache_to_disk (db : DB) : DB := ⟨db.cache, db.cache⟩

/-- `db_get_unhandled_events` (utils.py lines 104-108): the sentinel entry,
or `[]` on `KeyError`. -/
def db_get_unhandled_events (db : DB) : List JVal :=
  (dictGet db.cache DB_UNHANDLED_EVENTS_KEY).getD []

/-- `db_remove_unhandled_event` (utils.py lines 111-115): `list.remove` drops
the first occurrence and is followed by a sync; `KeyError` (no sentinel
entry) and `ValueError` (value not in the list) are suppressed, and in those
cases no sync happens. The argument is the raw `event_type` object. -/
def db_remove_unhandled_event (event_type : JVal) (db : DB) : DB :=
  match dictGet db.cache DB_UNHANDLED_EVENTS_KEY with
  | none => db
  | some curr =>
      if event_type ∈ curr then
        sync_cache_to_disk
          ⟨dictSet db.cache DB_UNHANDLED_EVENTS_KEY (curr.erase event_type), db.disk⟩
      else db

/-- `db_set_unhandled_event` (utils.py lines 118-126): append then
de-duplicate with `list(set(curr))`, or start a fresh one-element list on
`KeyError`; always syncs. -/
def db_set_unhandled_event (event_type : JVal) (db : DB) : DB :=
  match dictGet db.cache DB_UNHANDLED_EVENTS_KEY with
  | some curr =>
      sync_cache_to_disk
        ⟨dictSet db.cache DB_UNHANDLED_EVENTS_KEY ((curr ++ [event_type]).dedup), db.disk⟩
  | none =>
      sync_cache_to_disk ⟨dictSet db.cache DB_UNHANDLED_EVENTS_KEY [event_type], db.disk⟩

/-- `db_get_event_config` (utils.py lines 129-130): `KeyError` is `none`. -/
def db_get_event_config (event_type : String) (db : DB) : Option (List JVal) :=
  dictGet db.cache event_type

/-- The `new_webhook` dictionary built by `db_add_webhook_to_event`
(utils.py lines 143-145); `filter_reaction` is stored only when truthy. -/
def mk_webhook (name webhook_url adding_user_id : String)
    (filter_reaction : Option String) : Dict :=
  let base : Dict :=
    [("name", .str name), ("webhook_url", .str webhook_url),
     ("added_by", .str adding_user_id)]
  if filter_reaction.getD "" ≠ "" then
    base ++ [("filter_reaction", .str (filter_reaction.getD ""))]
  else base

/-- `db_add_webhook_to_event` (utils.py lines 140-150): append to the bucket,
creating it on `KeyError`; always syncs. -/
def db_add_webhook_to_event (event_type name webhook_url adding_user_id : String)
    (filter_reaction : Option String) (db : DB) : DB :=
  let new_webhook := JVal.obj (mk_webhook name webhook_url adding_user_id filter_reaction)
  match dictGet db.cache event_type with
  | some curr =>
      sync_cache_to_disk ⟨dictSet db.cache event_type (curr ++ [new_webhook]), db.disk⟩
  | none => sync_cache_to_disk ⟨dictSet db.cache event_type [new_webhook], db.disk⟩

/-- `db_remove_event` (utils.py lines 153-158): delete then sync, or log only
on `KeyError`. -/
def db_remove_event (event_type : String) (db : DB) : DB :=
  match dictGet db.cache event_type with
  | some _ => sync_cache_to_disk ⟨dictDel db.cache event_type, db.disk⟩
  | none => db

/-- `db_import` (utils.py lines 161-166): merge every key of `new_data` into
the cache, sync once, return `len(new_data.keys())`. -/
def db_import (new_data : Store) (db : DB) : DB × Nat :=
  (sync_cache_to_disk
     ⟨new_data.foldl (fun acc kv => dictSet acc kv.1 kv.2) db.cache, db.disk⟩,
   new_data.length)

/-- `db_export` (utils.py lines 169-170). -/
def db_export (db : DB) : Store := db.cache

/-- An uncaught Python exception. -/
inductive PyErr where
  | typeError : PyErr
  | keyError : PyErr
  deriving Repr, DecidableEq

/-- `webhook_config.get("filter_react", "")` followed by `.replace` on the
result (utils.py lines 555 and 558): a missing key yields `""`; a present
non-string value raises when `.replace` is called on it. -/
def pyStrField (d : Dict) (k : String) : Except PyErr String :=
  match dictGet d k with
  | none => .ok ""
  | some (.str s) => .ok s
  | some _ => .error .typeError

/-- `filter_react.replace(":", "")` (utils.py line 558). -/
def stripColons (s : String) : String :=
  String.mk (s.data.filter (fun ch => ch ≠ ':'))

/-- `event.get("item", {}).get("channel")` (utils.py line 560): a present but
non-dict `item` raises on the second `.get`. -/
def itemChannelGet (event : Dict) : Except PyErr (Option JVal) :=
  match dictGet event "item" with
  | none => .ok none
  | some (.obj d) => .ok (dictGet d "channel")
  | some _ => .error .typeError

/-- `should_filter_event` (utils.py lines 548-575). `Except.error` is an
uncaught Python exception (non-string `filter_react`, or non-dict `item`). A
`some` reason means the event is filtered out for this registration. -/
def should_filter_event (webhook_config event : Dict) : Except PyErr (Option String) :=
  let event_type := dictGet event "type"
  if event_type = some (.str EVENT_REACTION_ADDED) then do
    let filter_react0 ← pyStrField webhook_config "filter_react"
    let filter_channel := (dictGet webhook_config "filter_channel").getD (.str "")
    let filter_react := stripColons filter_react0
    let reaction := dictGet event "reaction"
    let channel_id ← itemChannelGet event
    if filter_react ≠ "" ∧ some (JVal.str filter_react) ≠ reaction then
      .ok (some ("No emoji match: " ++ filter_react ++ " but got " ++ pyShow reaction ++ "."))
    else if pyTruthy (some filter_channel) ∧ some filter_channel ≠ channel_id then
      .ok (some ("No channel match: " ++ pyStr filter_channel ++ " but got " ++
                 pyShow channel_id ++ "."))
    else .ok none
  else if event_type = some (.str EVENT_APP_MENTION) then
    let filter_channel := (dictGet webhook_config "filter_channel").getD (.str "")
    let channel_id := dictGet event "channel"
    if pyTruthy (some filter_channel) ∧ some filter_channel ≠ channel_id then
      .ok (some ("No channel match: " ++ pyStr filter_channel ++ " but got " ++
                 pyShow channel_id ++ "."))
    else .ok none
  else .ok none

/-- `d[k]` on an event dictionary: `KeyError` when the key is missing. -/
def pyIndex (d : Dict) (k : String) : Except PyErr JVal :=
  match dictGet d k with
  | some v => .ok v
  | none => .error .keyError

/-- `v[k]` on a nested value: raises unless `v` is a dictionary. -/
def jvalIndex (v : JVal) (k : String) : Except PyErr JVal :=
  match v with
  | .obj d => pyIndex d k
  | _ => .error .typeError

/-- `flatten_payload_for_slack_workflow_builder` (utils.py lines 578-607):
the reaction-added and channel-created shapes, and the pass-through fallback
for any other type. -/
def flatten_payload_for_slack_workflow_builder (event : Dict) : Except PyErr Dict := do
  let et ← pyIndex event "type"
  if et = .str "reaction_added" then
    let user ← pyIndex event "user"
    let reaction ← pyIndex event "reaction"
    let item_user ← pyIndex event "item_user"
    let item ← pyIndex event "item"
    let item_type ← jvalIndex item "type"
    let item_channel ← jvalIndex item "channel"
    let item_ts ← jvalIndex item "ts"
    let event_ts ← pyIndex event "event_ts"
    return [("type", et), ("user", user), ("reaction", reaction), ("item_user", item_user),
            ("item_type", item_type), ("item_channel", item_channel), ("item_ts", item_ts),
            ("event_ts", event_ts)]
  else if et = .str "channel_created" then
    let channel ← pyIndex event "channel"
    let channel_id ← jvalIndex channel "id"
    let channel_name ← jvalIndex channel "name"
    let channel_created ← jvalIndex channel "created"
    let channel_creator ← jvalIndex channel "creator"
    return [("type", et), ("channel_id", channel_id), ("channel_name", channel_name),
            ("channel_created", .str (pyStr channel_created)),
            ("channel_creator", channel_creator)]
  else
    return event

/-- One outbound `send_webhook` call (utils.py lines 89-101): destination
URL, JSON body, and the status code of the response. -/
structure Delivery where
  url : String
  body : Dict
  status : Nat
  deriving Repr, DecidableEq

/-- The body sent for one registration (utils.py lines 79-82): the raw event
when the registration asks for it, else the flattened payload. -/
def mkBody (webhook_config event : Dict) : Except PyErr Dict :=
  if pyTruthy (dictGet webhook_config "raw_event") then .ok event
  else flatten_payload_for_slack_workflow_builder event

/-- The fan-out loop of `generic_event_proxy` (utils.py lines 73-86),
returning the deliveries issued in order. `respond` gives the status code a
destination answers with. An uncaught exception inside an iteration
(non-dict registration, failing flatten, missing or non-string
`webhook_url`) aborts the whole dispatch, so no further delivery happens; a
failure status (`>= 300`) is only logged and the loop continues. -/
def fanout (respond : String → Dict → Nat) (event : Dict) : List JVal → List Delivery
  | [] => []
  | webhook_config :: rest =>
      match webhook_config with
      | JVal.obj cfg =>
          match should_filter_event cfg event with
          | .error _ => []
          | .ok (some _) => fanout respond event rest
          | .ok none =>
              match mkBody cfg event with
              | .error _ => []
              | .ok json_body =>
                  match dictGet cfg "webhook_url" with
                  | some (JVal.str url) =>
                      ⟨url, json_body, respond url json_body⟩ :: fanout respond event rest
                  | _ => []
      | _ => []

/-- `generic_event_proxy` (utils.py lines 62-86): look the event type up, on
`KeyError` record it as unhandled and stop; otherwise clear it from the
unhandled list and fan out. Returns the updated store and the deliveries
issued. When `event.get("type")` is `None` or a non-string value it matches
no store key, so the `KeyError` path stores that raw value. -/
def generic_event_proxy (respond : String → Dict → Nat) (event : Dict) (db : DB) :
    DB × List Delivery :=
  match dictGet event "type" with
  | some (JVal.str event_type) =>
      match db_get_event_config event_type db with
      | some workflow_webhooks_to_request =>
          (db_remove_unhandled_event (JVal.str event_type) db,
           fanout respond event workflow_webhooks_to_request)
      | none => (db_set_unhandled_event (JVal.str event_type) db, [])
  | et => (db_set_unhandled_event (et.getD JVal.null) db, [])

/-- Startup load of the durable file (utils.py lines 36-46): the result of
`json.load`, or the empty snapshot when `JSONDecodeError` is raised (empty
or malformed file). -/
def startup_cache (parsed : Option Store) : Store := parsed.getD []

/-- The §3 bucket-key invariant, decided on a snapshot: whatever is stored
under the reserved sentinel key holds no registration dictionary. -/
def no_bucket_under_sentinel (s : Store) : Bool :=
  ((dictGet s DB_UNHANDLED_EVENTS_KEY).getD []).all (fun v => ! v.isObj)

/-- A reaction-added event carrying the reaction `grin` (spec §8). -/
def grinEvent : Dict :=
  [("type", .str "reaction_added"), ("user", .str "U1"), ("reaction", .str "grin"),
   ("item_user", .str "U2"),
   ("item", .obj [("type", .str "message"), ("channel", .str "C1"), ("ts", .str "1.1")]),
   ("event_ts", .str "2.2")]

/-- The spec §8 reaction-added event with reaction `thumbsup`, also the
flatten example of §8. -/
def thumbsupEvent : Dict :=
  [("type", .str "reaction_added"), ("user", .str "U1"), ("reaction", .str "thumbsup"),
   ("item_user", .str "U2"),
   ("item", .obj [("type", .str "message"), ("channel", .str "C1"), ("ts", .str "1.1")]),
   ("event_ts", .str "2.2")]

/-- The registration of claim C1: created by the administrative add with
`filter_reaction = "thumbsup"`. -/
def c1Webhook : Dict := mk_webhook "n" "https://hook.example" "U1" (some "thumbsup")

/-- A registration without filters pointing at destination `a`. -/
def w4reg1 : Dict :=
  [("name", .str "r1"), ("webhook_url", .str "https://a.example"), ("added_by", .str "U1")]

/-- A registration without filters pointing at destination `b`. -/
def w4reg2 : Dict :=
  [("name", .str "r2"), ("webhook_url", .str "https://b.example"), ("added_by", .str "U1")]

/-- A store with one `app_mention` bucket holding the two registrations. -/
def w4db : DB :=
  ⟨[("app_mention", [JVal.obj w4reg1, JVal.obj w4reg2])],
   [("app_mention", [JVal.obj w4reg1, JVal.obj w4reg2])]⟩

/-- A concrete `app_mention` event. -/
def w4event : Dict := [("type", .str "app_mention"), ("channel", .str "C1")]

/-- A destination behaviour where the first registration's URL answers with a
failure status and every other destination succeeds. -/
def w4respond : String → Dict → Nat :=
  fun u _ => if u = "https://a.example" then 500 else 200

/-- The store reached from empty by marking `app_mention` unhandled and then
giving it its first registration. -/
def c2Db : DB :=
  db_add_webhook_to_event "app_mention" "n" "https://x" "U1" none
    (db_set_unhandled_event (.str "app_mention") ⟨[], []⟩)

/-- A registration for `reaction_added` that filters on the reaction `pray`
(keyed `filter_react`, the key the filter engine reads). -/
def w9reg : Dict :=
  [("name", .str "r"), ("webhook_url", .str "https://a.example"),
   ("added_by", .str "U1"), ("filter_react", .str "pray")]

/-- A store where `reaction_added` is marked unhandled although it has a
bucket whose only registration filters everything but `pray`. -/
def w9db : DB :=
  ⟨[(DB_UNHANDLED_EVENTS_KEY, [JVal.str "reaction_added"]),
    ("reaction_added", [JVal.obj w9reg])],
   [(DB_UNHANDLED_EVENTS_KEY, [JVal.str "reaction_added"]),
    ("reaction_added", [JVal.obj w9reg])]⟩

/-- A destination behaviour where every delivery fails. -/
def w9respond : String → Dict → Nat := fun _ _ => 500

theorem dictGet_dictSet_self (m : List (String × α)) (k : String) (v : α) :
    dictGet (dictSet m k v) k = some v := by
  induction m with
  | nil => simp [dictGet, dictSet]
  | cons p rest ih =>
      obtain ⟨k0, v0⟩ := p
      by_cases h : k0 = k
      · simp [dictSet, dictGet, h]
      · simp [dictSet, dictGet, h, ih]

theorem dictGet_dictSet_ne (m : List (String × α)) (v : α) {k k' : String}
    (h : k' ≠ k) : dictGet (dictSet m k v) k' = dictGet m k' := by
  induction m with
  | nil => simp [dictGet, dictSet, Ne.symm h]
  | cons p rest ih =>
      obtain ⟨k0, v0⟩ := p
      by_cases h0 : k0 = k
      · subst h0
        simp [dictSet, dictGet, Ne.symm h]
      · by_cases h1 : k0 = k'
        · subst h1
          simp [dictSet, dictGet, h0]
        · simp [dictSet, dictGet, h0, h1, ih]

theorem dictGet_eq_none_of_not_mem (m : List (String × α)) (k : String)
    (h : k ∉ m.map Prod.fst) : dictGet m k = none := by
  induction m with
  | nil => rfl
  | cons p rest ih =>
      obtain ⟨k0, v0⟩ := p
      have h1 : k0 ≠ k := fun hh => h (by simp [hh])
      have h2 : k ∉ rest.map Prod.fst := fun hh => h (by simp [hh])
      simp [dictGet, h1, ih h2]

theorem dictGet_dictDel_self (m : List (String × α)) (k : String)
    (h : (m.map Prod.fst).Nodup) : dictGet (dictDel m k) k = none := by
  induction m with
  | nil => rfl
  | cons p rest ih =>
      obtain ⟨k0, v0⟩ := p
      simp only [List.map_cons, List.nodup_cons] at h
      by_cases h0 : k0 = k
      · subst h0
        simp only [dictDel, if_pos rfl]
        exact dictGet_eq_none_of_not_mem rest k0 h.1
      · simp [dictDel, dictGet, h0, ih h.2]

theorem dictGet_dictDel_ne (m : List (String × α)) {k k' : String} (h : k' ≠ k) :
    dictGet (dictDel m k) k' = dictGet m k' := by
  induction m with
  | nil => rfl
  | cons p rest ih =>
      obtain ⟨k0, v0⟩ := p
      by_cases h0 : k0 = k
      · subst h0
        simp [dictDel, dictGet, Ne.symm h]
      · by_cases h1 : k0 = k'
        · subst h1
          simp [dictDel, dictGet, h0]
        · simp [dictDel, dictGet, h0, h1, ih]

theorem dictSet_eq_append (m : List (String × α)) (k : String) (v : α)
    (h : k ∉ m.map Prod.fst) : dictSet m k v = m ++ [(k, v)] := by
  induction m with
  | nil => rfl
  | cons p rest ih =>
      obtain ⟨k0, v0⟩ := p
      have h1 : k0 ≠ k := fun hh => h (by simp [hh])
      have h2 : k ∉ rest.map Prod.fst := fun hh => h (by simp [hh])
      simp [dictSet, h1, ih h2]

theorem import_foldl_append (l : Store) :
    ∀ acc : Store, (l.map Prod.fst).Nodup →
      (∀ k ∈ l.map Prod.fst, k ∉ acc.map Prod.fst) →
      l.foldl (fun a kv => dictSet a kv.1 kv.2) acc = acc ++ l := by
  induction l with
  | nil =>
      intro acc _ _
      simp
  | cons kv rest ih =>
      intro acc hl hd
      obtain ⟨k, v⟩ := kv
      simp only [List.map_cons, List.nodup_cons] at hl
      rw [List.foldl_cons]
      have hk : k ∉ acc.map Prod.fst := hd k (by simp)
      rw [dictSet_eq_append acc k v hk]
      rw [ih (acc ++ [(k, v)]) hl.2 ?_]
      · simp
      · intro k' hk'
        simp only [List.map_append, List.mem_append, List.map_cons, List.map_nil]
        rintro (hc | hc)
        · exact hd k' (by simp [hk']) hc
        · simp only [List.mem_singleton] at hc
          exact hl.1 (hc ▸ hk')

theorem set_unhandled_cache_frame (v : JVal) (db : DB) (k : String)
    (hk : k ≠ DB_UNHANDLED_EVENTS_KEY) :
    dictGet (db_set_unhandled_event v db).cache k = dictGet db.cache k := by
  unfold db_set_unhandled_event
  split <;>
    · simp only [sync_cache_to_disk]
      exact dictGet_dictSet_ne _ _ hk

theorem remove_unhandled_cache_frame (v : JVal) (db : DB) (k : String)
    (hk : k ≠ DB_UNHANDLED_EVENTS_KEY) :
    dictGet (db_remove_unhandled_event v db).cache k = dictGet db.cache k := by
  unfold db_remove_unhandled_event
  split
  · rfl
  · split
    · simp only [sync_cache_to_disk]
      exact dictGet_dictSet_ne _ _ hk
    · rfl

theorem remove_unhandled_not_mem (db : DB) (v : JVal)
    (hnd : (db_get_unhandled_events db).Nodup) :
    v ∉ db_get_unhandled_events (db_remove_unhandled_event v db) := by
  rcases hg : dictGet db.cache DB_UNHANDLED_EVENTS_KEY with _ | curr
  · simp [db_remove_unhandled_event, hg, db_get_unhandled_events]
  · have hnd' : curr.Nodup := by simpa [db_get_unhandled_events, hg] using hnd
    by_cases hm : v ∈ curr
    · simp only [db_remove_unhandled_event, hg, if_pos hm, db_get_unhandled_events,
                 sync_cache_to_disk, dictGet_dictSet_self, Option.getD_some]
      exact hnd'.not_mem_erase
    · simp [db_remove_unhandled_event, hg, hm, db_get_unhandled_events]

theorem no_bucket_congr {s s' : Store}
    (h : dictGet s' DB_UNHANDLED_EVENTS_KEY = dictGet s DB_UNHANDLED_EVENTS_KEY)
    (hok : no_bucket_under_sentinel s = true) :
    no_bucket_under_sentinel s' = true := by
  rw [no_bucket_under_sentinel, h]
  exact hok

theorem set_unhandled_no_bucket (v : JVal) (db : DB) (hv : v.isObj = false)
    (hok : no_bucket_under_sentinel db.cache = true) :
    no_bucket_under_sentinel (db_set_unhandled_event v db).cache = true := by
  rcases hg : dictGet db.cache DB_UNHANDLED_EVENTS_KEY with _ | curr
  · simp [db_set_unhandled_event, hg, no_bucket_under_sentinel, sync_cache_to_disk,
          dictGet_dictSet_self, hv]
  · have hok' : ∀ x ∈ curr, (!x.isObj) = true := by
      rw [no_bucket_under_sentinel, hg] at hok
      simpa [List.all_eq_true] using hok
    simp only [db_set_unhandled_event, hg, no_bucket_under_sentinel, sync_cache_to_disk,
               dictGet_dictSet_self, Option.getD_some]
    rw [List.all_eq_true]
    intro x hx
    rcases List.mem_append.mp (List.mem_dedup.mp hx) with h1 | h2
    · exact hok' x h1
    · simp only [List.mem_singleton] at h2
      subst h2
      simpa using hv

theorem remove_unhandled_no_bucket (v : JVal) (db : DB)
    (hok : no_bucket_under_sentinel db.cache = true) :
    no_bucket_under_sentinel (db_remove_unhandled_event v db).cache = true := by
  rcases hg : dictGet db.cache DB_UNHANDLED_EVENTS_KEY with _ | curr
  · simpa [db_remove_unhandled_event, hg] using hok
  · have hok' : ∀ x ∈ curr, (!x.isObj) = true := by
      rw [no_bucket_under_sentinel, hg] at hok
      simpa [List.all_eq_true] using hok
    by_cases hm : v ∈ curr
    · simp only [db_remove_unhandled_event, hg, if_pos hm, no_bucket_under_sentinel,
                 sync_cache_to_disk, dictGet_dictSet_self, Option.getD_some]
      rw [List.all_eq_true]
      intro x hx
      exact hok' x (List.mem_of_mem_erase hx)
    · simpa [db_remove_unhandled_event, hg, hm] using hok

theorem add_webhook_cache_frame (db : DB) (et n u usr : String) (fr : Option String)
    (k : String) (hk : k ≠ et) :
    dictGet (db_add_webhook_to_event et n u usr fr db).cache k = dictGet db.cache k := by
  unfold db_add_webhook_to_event
  split <;>
    · simp only [sync_cache_to_disk]
      exact dictGet_dictSet_ne _ _ hk

theorem remove_event_cache_frame (db : DB) (t k : String) (hk : k ≠ t) :
    dictGet (db_remove_event t db).cache k = dictGet db.cache k := by
  unfold db_remove_event
  split
  · simp only [sync_cache_to_disk]
    exact dictGet_dictDel_ne _ hk
  · rfl

theorem import_fold_no_bucket (l : Store) :
    ∀ acc : Store, no_bucket_under_sentinel acc = true →
      (∀ kv ∈ l, kv.1 = DB_UNHANDLED_EVENTS_KEY → ∀ v ∈ kv.2, v.isObj = false) →
      no_bucket_under_sentinel (l.foldl (fun a kv => dictSet a kv.1 kv.2) acc) = true := by
  induction l with
  | nil =>
      intro acc hacc _
      simpa using hacc
  | cons kv rest ih =>
      intro acc hacc hl
      rw [List.foldl_cons]
      refine ih _ ?_ (fun kv' hm => hl kv' (List.mem_cons_of_mem _ hm))
      by_cases hk : kv.1 = DB_UNHANDLED_EVENTS_KEY
      · rw [no_bucket_under_sentinel, ← hk, dictGet_dictSet_self, Option.getD_some,
            List.all_eq_true]
        intro x hx
        simpa using hl kv (List.mem_cons_self _ _) hk x hx
      · exact no_bucket_congr (dictGet_dictSet_ne _ _ (fun hh => hk hh.symm)) hacc

/-- C1: evaluation at the failing input. The registration the administrative
add creates for `filter_reaction = "thumbsup"` stores the filter under the
key `filter_reaction`, but `should_filter_event` reads the key
`filter_react`; so the incoming `grin` reaction is not excluded (the filter
reason is `none`), contradicting the claim, although a configuration keyed
`filter_react` behaves exactly as the claim states. -/
theorem c1_filter_key_mismatch :
    dictGet c1Webhook "filter_reaction" = some (.str "thumbsup") ∧
    should_filter_event c1Webhook grinEvent = .ok none ∧
    should_filter_event c1Webhook thumbsupEvent = .ok none ∧
    should_filter_event [("filter_react", .str "thumbsup")] grinEvent =
      .ok (some "No emoji match: thumbsup but got grin.") ∧
    should_filter_event [("filter_react", .str "thumbsup")] thumbsupEvent = .ok none :=
  ⟨rfl, rfl, rfl, rfl, rfl⟩

/-- C2 counterexample: from the empty store, mark `app_mention` unhandled and
then give it its first registration; the bucket is now non-empty while
`app_mention` still sits in the unhandled list, so `db_add_webhook_to_event`
did not remove it. -/
theorem c2_add_leaves_type_unhandled :
    (dictGet c2Db.cache "app_mention").isSome = true ∧
    dictGet c2Db.cache "app_mention" ≠ some [] ∧
    JVal.str "app_mention" ∈ db_get_unhandled_events c2Db := by
  refine ⟨rfl, ?_, ?_⟩ <;> decide

/-- C2 (amended): mutual exclusivity is restored at dispatch time, not at
registration time: dispatching an event whose type has a bucket removes the
type from the (de-duplicated) unhandled list, while `db_add_webhook_to_event`
for a non-sentinel event type leaves the unhandled list unchanged. -/
theorem c2_exclusivity_restored_at_dispatch (db : DB) (event : Dict) (t : String)
    (respond : String → Dict → Nat) (name webhook_url adding_user_id : String)
    (filter_reaction : Option String)
    (ht : dictGet event "type" = some (.str t))
    (hb : (db_get_event_config t db).isSome = true)
    (hnd : (db_get_unhandled_events db).Nodup)
    (hs : t ≠ DB_UNHANDLED_EVENTS_KEY) :
    JVal.str t ∉ db_get_unhandled_events (generic_event_proxy respond event db).1 ∧
    db_get_unhandled_events
        (db_add_webhook_to_event t name webhook_url adding_user_id filter_reaction db)
      = db_get_unhandled_events db := by
  constructor
  · obtain ⟨cfgs, hcfg⟩ := Option.isSome_iff_exists.mp hb
    simp only [generic_event_proxy, ht, hcfg]
    exact remove_unhandled_not_mem db _ hnd
  · unfold db_add_webhook_to_event db_get_unhandled_events
    split <;>
      · simp only [sync_cache_to_disk]
        rw [dictGet_dictSet_ne _ _ (Ne.symm hs)]

/-- C2 (amended) at a concrete input: the counterexample store, dispatched
and extended. -/
theorem c2_exclusivity_restored_at_dispatch_witness :
    JVal.str "app_mention" ∉
      db_get_unhandled_events (generic_event_proxy w4respond w4event c2Db).1 ∧
    db_get_unhandled_events
        (db_add_webhook_to_event "app_mention" "n2" "https://y" "U2" none c2Db)
      = db_get_unhandled_events c2Db :=
  c2_exclusivity_restored_at_dispatch c2Db w4event "app_mention" w4respond
    "n2" "https://y" "U2" none (by decide) (by decide) (by decide) (by decide)

/-- C3: every mutating store operation ends in `sync_cache_to_disk` (or
changes nothing), so from any state in which the cache equals the durable
file's parsed contents, each of add-registration, remove-bucket,
mark-unhandled, clear-unhandled and import leaves them equal again. -/
theorem c3_write_through (db : DB) (h : db.cache = db.disk)
    (event_type name webhook_url adding_user_id removed_type marked_type : String)
    (filter_reaction : Option String) (new_data : Store) :
    ((db_add_webhook_to_event event_type name webhook_url adding_user_id
        filter_reaction db).cache =
      (db_add_webhook_to_event event_type name webhook_url adding_user_id
        filter_reaction db).disk) ∧
    ((db_remove_event removed_type db).cache = (db_remove_event removed_type db).disk) ∧
    ((db_set_unhandled_event (JVal.str marked_type) db).cache =
      (db_set_unhandled_event (JVal.str marked_type) db).disk) ∧
    ((db_remove_unhandled_event (JVal.str marked_type) db).cache =
      (db_remove_unhandled_event (JVal.str marked_type) db).disk) ∧
    ((db_import new_data db).1.cache = (db_import new_data db).1.disk) := by
  refine ⟨?_, ?_, ?_, ?_, ?_⟩
  · unfold db_add_webhook_to_event
    split <;> rfl
  · unfold db_remove_event
    split
    · rfl
    · exact h
  · unfold db_set_unhandled_event
    split <;> rfl
  · unfold db_remove_unhandled_event
    split
    · exact h
    · split
      · rfl
      · exact h
  · rfl

/-- C3 at a concrete input: the empty, synchronized store. -/
theorem c3_write_through_witness :
    (DB.mk [] []).cache = (DB.mk [] []).disk ∧
    ((db_add_webhook_to_event "app_mention" "n" "https://x" "U1" none ⟨[], []⟩).cache =
      (db_add_webhook_to_event "app_mention" "n" "https://x" "U1" none ⟨[], []⟩).disk) ∧
    ((db_remove_event "t" ⟨[], []⟩).cache = (db_remove_event "t" ⟨[], []⟩).disk) ∧
    ((db_set_unhandled_event (JVal.str "m") ⟨[], []⟩).cache =
      (db_set_unhandled_event (JVal.str "m") ⟨[], []⟩).disk) ∧
    ((db_remove_unhandled_event (JVal.str "m") ⟨[], []⟩).cache =
      (db_remove_unhandled_event (JVal.str "m") ⟨[], []⟩).disk) ∧
    ((db_import [("a", [])] ⟨[], []⟩).1.cache = (db_import [("a", [])] ⟨[], []⟩).1.disk) :=
  ⟨rfl, c3_write_through ⟨[], []⟩ rfl "app_mention" "n" "https://x" "U1" "t" "m" none
    [("a", [])]⟩

/-- C4: with a bucket of exactly two registrations neither of which is
filtered, dispatch issues a delivery to both destination URLs in the order
the registrations were added, for every assignment of response statuses — in
particular a failure status from the first destination does not prevent the
second delivery. -/
theorem c4_two_registrations_both_delivered (db : DB) (event : Dict) (t : String)
    (r1 r2 : Dict) (u1 u2 : String) (b1 b2 : Dict) (respond : String → Dict → Nat)
    (ht : dictGet event "type" = some (.str t))
    (hb : db_get_event_config t db = some [JVal.obj r1, JVal.obj r2])
    (hf1 : should_filter_event r1 event = .ok none)
    (hf2 : should_filter_event r2 event = .ok none)
    (hm1 : mkBody r1 event = .ok b1)
    (hm2 : mkBody r2 event = .ok b2)
    (hu1 : dictGet r1 "webhook_url" = some (.str u1))
    (hu2 : dictGet r2 "webhook_url" = some (.str u2)) :
    (generic_event_proxy respond event db).2 =
      [⟨u1, b1, respond u1 b1⟩, ⟨u2, b2, respond u2 b2⟩] := by
  simp only [generic_event_proxy, ht, hb]
  simp [fanout, hf1, hf2, hm1, hm2, hu1, hu2]

/-- C4 at a concrete input: the first destination answers 500 and the second
is still delivered to, in order. -/
theorem c4_two_registrations_both_delivered_witness :
    w4respond "https://a.example" w4event = 500 ∧
    (generic_event_proxy w4respond w4event w4db).2 =
      [⟨"https://a.example", w4event, 500⟩, ⟨"https://b.example", w4event, 200⟩] :=
  ⟨rfl,
   c4_two_registrations_both_delivered w4db w4event "app_mention" w4reg1 w4reg2
     "https://a.example" "https://b.example" w4event w4event w4respond
     rfl rfl rfl rfl rfl rfl rfl rfl⟩

/-- C5: exporting a snapshot and importing it into the empty store rebuilds
an equal snapshot, and the import returns the number of keys of the exported
data. -/
theorem c5_export_import_roundtrip (db : DB) (h : (db.cache.map Prod.fst).Nodup) :
    (db_import (db_export db) ⟨[], []⟩).1.cache = db_export db ∧
    (db_import (db_export db) ⟨[], []⟩).2 = (db_export db).length := by
  refine ⟨?_, rfl⟩
  have hfold := import_foldl_append db.cache [] h (by simp)
  simpa [db_import, db_export, sync_cache_to_disk] using hfold

/-- C5 at a concrete input: a snapshot with one bucket and the sentinel. -/
theorem c5_export_import_roundtrip_witness :
    (db_import (db_export w9db) ⟨[], []⟩).1.cache = db_export w9db ∧
    (db_import (db_export w9db) ⟨[], []⟩).2 = (db_export w9db).length :=
  c5_export_import_roundtrip w9db (by decide)

/-- C6: at startup the cache is the parsed snapshot when the durable file
parses, and the empty snapshot on any parse failure; loading is total, so
startup never fails on unparsable persisted state. -/
theorem c6_startup_never_fails :
    ∀ s : Store, startup_cache (some s) = s ∧ startup_cache none = ([] : Store) :=
  fun _ => ⟨rfl, rfl⟩

/-- C7: flattening the §8 reaction-added example yields exactly the eight
expected keys bound to the corresponding (nested) event fields, and none of
the values is a nested structure. -/
theorem c7_flatten_example :
    flatten_payload_for_slack_workflow_builder thumbsupEvent =
      .ok [("type", .str "reaction_added"), ("user", .str "U1"),
           ("reaction", .str "thumbsup"), ("item_user", .str "U2"),
           ("item_type", .str "message"), ("item_channel", .str "C1"),
           ("item_ts", .str "1.1"), ("event_ts", .str "2.2")] ∧
    ([("type", JVal.str "reaction_added"), ("user", .str "U1"),
      ("reaction", .str "thumbsup"), ("item_user", .str "U2"),
      ("item_type", .str "message"), ("item_channel", .str "C1"),
      ("item_ts", .str "1.1"), ("event_ts", .str "2.2")].all
        (fun kv => !kv.2.isObj && !kv.2.isArr)) = true :=
  ⟨rfl, rfl⟩

/-- C8 counterexample: nothing guards the reserved sentinel key, so the
administrative add invoked with it stores a registration dictionary inside
the sentinel entry, violating the invariant as claimed. -/
theorem c8_add_with_sentinel_key_breaks_invariant :
    no_bucket_under_sentinel
      (db_add_webhook_to_event DB_UNHANDLED_EVENTS_KEY "n" "https://x" "U1" none
        ⟨[], []⟩).cache = false := by decide

/-- C8 (amended): provided the administrative add is never invoked with the
sentinel key as the event type, and imported data's sentinel entries carry
no registration dictionaries, every store operation — dispatch included, for
events whose `type` value is not itself a dictionary — preserves the
invariant that no registration dictionary is stored under the sentinel key. -/
theorem c8_sentinel_free_of_registrations (db : DB)
    (event_type name webhook_url adding_user_id removed_type marked_type : String)
    (filter_reaction : Option String) (new_data : Store) (event : Dict)
    (respond : String → Dict → Nat)
    (hok : no_bucket_under_sentinel db.cache = true)
    (hnodup : (db.cache.map Prod.fst).Nodup)
    (het : event_type ≠ DB_UNHANDLED_EVENTS_KEY)
    (hdata : ∀ kv ∈ new_data, kv.1 = DB_UNHANDLED_EVENTS_KEY →
      ∀ v ∈ kv.2, v.isObj = false)
    (hev : ((dictGet event "type").getD JVal.null).isObj = false) :
    no_bucket_under_sentinel (db_add_webhook_to_event event_type name webhook_url
      adding_user_id filter_reaction db).cache = true ∧
    no_bucket_under_sentinel (db_remove_event removed_type db).cache = true ∧
    no_bucket_under_sentinel (db_set_unhandled_event (.str marked_type) db).cache = true ∧
    no_bucket_under_sentinel
      (db_remove_unhandled_event (.str marked_type) db).cache = true ∧
    no_bucket_under_sentinel ((db_import new_data db).1).cache = true ∧
    no_bucket_under_sentinel (generic_event_proxy respond event db).1.cache = true := by
  refine ⟨?_, ?_, ?_, ?_, ?_, ?_⟩
  · exact no_bucket_congr
      (add_webhook_cache_frame db _ _ _ _ _ _ (Ne.symm het)) hok
  · by_cases hr : removed_type = DB_UNHANDLED_EVENTS_KEY
    · unfold db_remove_event
      rcases hg : dictGet db.cache removed_type with _ | curr
      · exact hok
      · rw [no_bucket_under_sentinel]
        simp only [sync_cache_to_disk]
        rw [← hr, dictGet_dictDel_self _ _ hnodup]
        rfl
    · exact no_bucket_congr (remove_event_cache_frame db _ _ (Ne.symm hr)) hok
  · exact set_unhandled_no_bucket _ db rfl hok
  · exact remove_unhandled_no_bucket _ db hok
  · exact import_fold_no_bucket new_data db.cache hok hdata
  · rcases ht : dictGet event "type" with _ | v
    · rw [ht] at hev
      simp only [generic_event_proxy, ht]
      exact set_unhandled_no_bucket _ db hev hok
    · rw [ht] at hev
      simp only [Option.getD_some] at hev
      cases v with
      | str t =>
          simp only [generic_event_proxy, ht]
          rcases hc : db_get_event_config t db with _ | cfgs
          · exact set_unhandled_no_bucket _ db rfl hok
          · exact remove_unhandled_no_bucket _ db hok
      | null =>
          simp only [generic_event_proxy, ht]
          exact set_unhandled_no_bucket _ db rfl hok
      | bool b =>
          simp only [generic_event_proxy, ht]
          exact set_unhandled_no_bucket _ db rfl hok
      | num n =>
          simp only [generic_event_proxy, ht]
          exact set_unhandled_no_bucket _ db rfl hok
      | list xs =>
          simp only [generic_event_proxy, ht]
          exact set_unhandled_no_bucket _ db rfl hok
      | obj kvs =>
          simp only [generic_event_proxy, ht]
          exact absurd hev (by simp [JVal.isObj])

/-- C8 (amended) at a concrete input: the empty store, non-sentinel keys,
string-listed import data and a string-typed event. -/
theorem c8_sentinel_free_of_registrations_witness :
    no_bucket_under_sentinel (db_add_webhook_to_event "app_mention" "n" "https://x"
      "U1" none ⟨[], []⟩).cache = true ∧
    no_bucket_under_sentinel (db_remove_event "t" (⟨[], []⟩ : DB)).cache = true ∧
    no_bucket_under_sentinel
      (db_set_unhandled_event (.str "m") (⟨[], []⟩ : DB)).cache = true ∧
    no_bucket_under_sentinel
      (db_remove_unhandled_event (.str "m") (⟨[], []⟩ : DB)).cache = true ∧
    no_bucket_under_sentinel ((db_import [("a", [JVal.str "x"])] (⟨[], []⟩ : DB)).1).cache
      = true ∧
    no_bucket_under_sentinel
      (generic_event_proxy w4respond w4event (⟨[], []⟩ : DB)).1.cache = true :=
  c8_sentinel_free_of_registrations ⟨[], []⟩ "app_mention" "n" "https://x" "U1" "t" "m"
    none [("a", [JVal.str "x"])] w4event w4respond (by decide) (by decide) (by decide)
    (by decide) (by decide)

/-- C9: dispatch clears the unhandled marking for any event type that has a
bucket, purely because the bucket exists: the conclusion holds for every
bucket content (so also when every registration is filtered out) and for
every assignment of delivery statuses (so also when every delivery fails). -/
theorem c9_dispatch_clears_unhandled (db : DB) (event : Dict) (t : String)
    (respond : String → Dict → Nat)
    (ht : dictGet event "type" = some (.str t))
    (hb : (db_get_event_config t db).isSome = true)
    (hnd : (db_get_unhandled_events db).Nodup) :
    JVal.str t ∉ db_get_unhandled_events (generic_event_proxy respond event db).1 := by
  obtain ⟨cfgs, hcfg⟩ := Option.isSome_iff_exists.mp hb
  simp only [generic_event_proxy, ht, hcfg]
  exact remove_unhandled_not_mem db _ hnd

/-- C9 at a concrete input: the bucket's only registration is filtered out
and the (never reached) destinations all fail, yet the marking is cleared. -/
theorem c9_dispatch_clears_unhandled_witness :
    (generic_event_proxy w9respond grinEvent w9db).2 = [] ∧
    JVal.str "reaction_added" ∉
      db_get_unhandled_events (generic_event_proxy w9respond grinEvent w9db).1 :=
  ⟨rfl, c9_dispatch_clears_unhandled w9db grinEvent "reaction_added" w9respond
    (by decide) (by decide) (by decide)⟩

/-- C10: dispatch never modifies any event-type bucket: every store key other
than the reserved sentinel key maps to the same value (same registrations,
in the same order) before and after `generic_event_proxy`. -/
theorem c10_dispatch_frame (db : DB) (event : Dict) (respond : String → Dict → Nat)
    (k : String) (hk : k ≠ DB_UNHANDLED_EVENTS_KEY) :
    dictGet (generic_event_proxy respond event db).1.cache k = dictGet db.cache k := by
  rcases ht : dictGet event "type" with _ | v
  · simp only [generic_event_proxy, ht]
    exact set_unhandled_cache_frame _ db k hk
  · cases v with
    | str t =>
        simp only [generic_event_proxy, ht]
        rcases hc : db_get_event_config t db with _ | cfgs
        · exact set_unhandled_cache_frame _ db k hk
        · exact remove_unhandled_cache_frame _ db k hk
    | null =>
        simp only [generic_event_proxy, ht]
        exact set_unhandled_cache_frame _ db k hk
    | bool b =>
        simp only [generic_event_proxy, ht]
        exact set_unhandled_cache_frame _ db k hk
    | num n =>
        simp only [generic_event_proxy, ht]
        exact set_unhandled_cache_frame _ db k hk
    | list xs =>
        simp only [generic_event_proxy, ht]
        exact set_unhandled_cache_frame _ db k hk
    | obj kvs =>
        simp only [generic_event_proxy, ht]
        exact set_unhandled_cache_frame _ db k hk

/-- C10 at a concrete input: the `app_mention` bucket is untouched by a
dispatch that delivers (and partly fails) to its registrations. -/
theorem c10_dispatch_frame_witness :
    dictGet (generic_event_proxy w4respond w4event w4db).1.cache "app_mention"
      = dictGet w4db.cache "app_mention" :=
  c10_dispatch_frame w4db w4event w4respond "app_mention" (by decide)

end WB
